import Mathlib

/-!
# Verification of the Nexus predictive task scheduler core

Shallow embedding of the scheduler's hot path: the EMA-based heuristic
predictor, the multi-objective scorer, the worker registry, the round-robin
fallback scheduler, the dispatcher with its circuit breaker, and the
drift detector of the feedback pipeline.

JavaScript numbers are modelled as rationals (`ℚ`); counters as `ℕ`;
`Date` values as epoch milliseconds (`ℕ`).  The IEEE value `Infinity`
produced by the drift detector on a non-positive prediction is modelled
as the `none` case of an `Option ℚ` ratio.  Human-readable message
strings built with `toFixed` are modelled by tags naming the branch that
produced them.
-/

namespace Nexus

/-- Worker availability states (`WorkerStatus` in `interfaces/types.ts`). -/
inductive WorkerStatus
  | idle
  | busy
  | draining
  | offline
deriving DecidableEq, Repr

/-- Worker state tracked by the registry (`WorkerState` in
`interfaces/types.ts`); `lastHeartbeat` is epoch milliseconds. -/
structure WorkerState where
  id : String
  status : WorkerStatus
  capabilities : List String
  currentLoad : ℚ
  lastHeartbeat : ℕ
  activeTasks : ℕ
  maxConcurrency : ℕ
deriving DecidableEq, Repr

/-- Optional task metadata (`TaskMetadata`); only the field consulted by
the scheduler core (`requiredCapabilities`) is modelled. -/
structure TaskMetadata where
  requiredCapabilities : Option (List String)
deriving DecidableEq, Repr

/-- Task submitted for scheduling (`Task` in `interfaces/types.ts`).
The opaque `payload` object is not consulted by any modelled component
and is omitted. -/
structure Task where
  id : String
  type : String
  priority : ℚ
  createdAt : ℕ
  metadata : Option TaskMetadata
deriving DecidableEq, Repr

/-- Prediction result (`TaskPrediction` in `interfaces/types.ts`). -/
structure TaskPrediction where
  taskId : String
  recommendedWorkerId : String
  confidence : ℚ
  estimatedDurationMs : ℚ
deriving DecidableEq, Repr

/-- Reason attached to a scheduling decision (`SchedulingReason`). -/
inductive SchedulingReason
  | prediction
  | fallback_round_robin
  | fallback_circuit_breaker
  | capability_match
  | load_balance
deriving DecidableEq, Repr

/-- Scheduling decision output (`SchedulingDecision`); `timestamp` is
epoch milliseconds. -/
structure SchedulingDecision where
  taskId : String
  workerId : String
  timestamp : ℕ
  usedFallback : Bool
  prediction : Option TaskPrediction
  reason : SchedulingReason
deriving DecidableEq, Repr

/-! ## EMA utilities (`predictor/ema.ts`) -/

/-- EMA state for a single task type (`EMAState` in `predictor/ema.ts`);
`lastUpdated` is epoch milliseconds. -/
structure EMAState where
  taskType : String
  ema : ℚ
  sampleCount : ℕ
  lastUpdated : ℕ
deriving DecidableEq, Repr

/-- `updateEMA` from `predictor/ema.ts`:
`newEMA = alpha * actual + (1 - alpha) * current`. -/
def updateEMA (current actual alpha : ℚ) : ℚ :=
  alpha * actual + (1 - alpha) * current

/-- `calculateConfidence` from `predictor/ema.ts`:
`Math.min(1.0, sampleCount / threshold)`. -/
def calculateConfidence (sampleCount : ℕ) (threshold : ℕ) : ℚ :=
  min 1 ((sampleCount : ℚ) / (threshold : ℚ))

/-- `initializeEMA` from `predictor/ema.ts`; `now` stands for the
`new Date()` taken at the call. -/
def initializeEMA (taskType : String) (initialValue : ℚ) (now : ℕ) : EMAState :=
  { taskType := taskType, ema := initialValue, sampleCount := 0, lastUpdated := now }

/-- `updateEMAState` from `predictor/ema.ts`: the first observation
(`sampleCount === 0`) replaces the EMA by the actual value, later ones
alpha-blend; the sample count always increments. -/
def updateEMAState (state : EMAState) (actual alpha : ℚ) (now : ℕ) : EMAState :=
  { state with
    ema := if state.sampleCount = 0 then actual else updateEMA state.ema actual alpha
    sampleCount := state.sampleCount + 1
    lastUpdated := now }

/-! ## Heuristic predictor (`predictor/heuristic-predictor.ts`) -/

/-- Predictor configuration (`HeuristicPredictorConfig`); the Redis
connection fields play no role in predict/feedback and are omitted. -/
structure HeuristicPredictorConfig where
  alpha : ℚ
  defaultDurationMs : ℚ
  confidenceThreshold : ℕ
deriving DecidableEq, Repr

/-- `DEFAULT_PREDICTOR_CONFIG` from `predictor/heuristic-predictor.ts`. -/
def DEFAULT_PREDICTOR_CONFIG : HeuristicPredictorConfig :=
  { alpha := 3/10, defaultDurationMs := 5000, confidenceThreshold := 100 }

/-- The predictor's `Map<string, EMAState>`, modelled as an
insertion-ordered association list with at most one entry per key. -/
abbrev PredictorState := List (String × EMAState)

/-- `Map.get`: first (and only) entry for the key. -/
def lookupEMA : PredictorState → String → Option EMAState
  | [], _ => none
  | (k, s) :: rest, t => if k = t then some s else lookupEMA rest t

/-- `Map.set`: replace the entry in place if the key is present
(JavaScript `Map` keeps the original insertion position), append
otherwise. -/
def setEMA : PredictorState → String → EMAState → PredictorState
  | [], t, s => [(t, s)]
  | (k, s₀) :: rest, t, s =>
    if k = t then (k, s) :: rest else (k, s₀) :: setEMA rest t s

/-- `HeuristicPredictor.predict`: O(1) lookup by task type; always
returns a prediction with an empty recommended worker (worker selection
belongs to the scorer). -/
def predict (m : PredictorState) (task : Task) (cfg : HeuristicPredictorConfig) :
    TaskPrediction :=
  match lookupEMA m task.type with
  | some state =>
    { taskId := task.id
      recommendedWorkerId := ""
      confidence := calculateConfidence state.sampleCount cfg.confidenceThreshold
      estimatedDurationMs := state.ema }
  | none =>
    { taskId := task.id
      recommendedWorkerId := ""
      confidence := 0
      estimatedDurationMs := cfg.defaultDurationMs }

/-- `HeuristicPredictor.feedback`: feedback without a task type is
ignored; a new type is initialized with the default duration before the
EMA update (so its first sample becomes the EMA); the updated state is
stored back into the map.  Persistence tracking has no effect on the
map and is not modelled. -/
def feedback (m : PredictorState) (taskType : Option String) (actualDurationMs : ℚ)
    (now : ℕ) (cfg : HeuristicPredictorConfig) : PredictorState :=
  match taskType with
  | none => m
  | some t =>
    let state :=
      match lookupEMA m t with
      | some s => s
      | none => initializeEMA t cfg.defaultDurationMs now
    setEMA m t (updateEMAState state actualDurationMs cfg.alpha now)

/-- One recorded call to `feedback` (the fields it actually reads). -/
structure FeedbackEvent where
  taskType : Option String
  actualDurationMs : ℚ
  now : ℕ

/-- Predictor state after a sequence of `feedback` calls starting from
the empty map (the map is mutated only by `feedback`). -/
def applyFeedbacks (cfg : HeuristicPredictorConfig) :
    PredictorState → List FeedbackEvent → PredictorState
  | m, [] => m
  | m, e :: rest =>
    applyFeedbacks cfg (feedback m e.taskType e.actualDurationMs e.now cfg) rest

/-! ## Worker registry (`registry/worker-registry.ts`)

The registry's `Map<string, WorkerState>` is modelled as an
insertion-ordered list of worker states (JavaScript `Map` iterates in
insertion order; `set` on an existing key keeps its position). -/

abbrev Registry := List WorkerState

/-- `WorkerRegistry.register`: store the worker with a fresh heartbeat,
replacing any existing entry with the same id in place, appending
otherwise.  The supplied `currentLoad` is stored unchanged. -/
def register (rs : Registry) (w : WorkerState) (now : ℕ) : Registry :=
  if rs.any (fun w' => w'.id = w.id) then
    rs.map (fun w' => if w'.id = w.id then { w with lastHeartbeat := now } else w')
  else
    rs ++ [{ w with lastHeartbeat := now }]

/-- `WorkerRegistry.unregister`. -/
def unregister (rs : Registry) (workerId : String) : Registry :=
  rs.filter (fun w => w.id ≠ workerId)

/-- `WorkerRegistry.get`. -/
def registryGet (rs : Registry) (workerId : String) : Option WorkerState :=
  rs.find? (fun w => w.id = workerId)

/-- `WorkerRegistry.heartbeat`: touch the heartbeat timestamp of an
existing worker (a no-op on an unknown id). -/
def heartbeatOp (rs : Registry) (workerId : String) (now : ℕ) : Registry :=
  rs.map (fun w => if w.id = workerId then { w with lastHeartbeat := now } else w)

/-- `WorkerRegistry.updateStatus` (a no-op on an unknown id). -/
def updateStatus (rs : Registry) (workerId : String) (status : WorkerStatus) : Registry :=
  rs.map (fun w => if w.id = workerId then { w with status := status } else w)

/-- `WorkerRegistry.updateLoad`: the load write is clamped with
`Math.max(0, Math.min(1, load))`; `activeTasks` is stored unchanged
(a no-op on an unknown id). -/
def updateLoad (rs : Registry) (workerId : String) (load : ℚ) (activeTasks : ℕ) :
    Registry :=
  rs.map (fun w =>
    if w.id = workerId then
      { w with currentLoad := max 0 (min 1 load), activeTasks := activeTasks }
    else w)

/-- The per-worker filter of `WorkerRegistry.getAvailable`: not offline
or draining, heartbeat within the timeout window, below max concurrency,
and a superset of the required capabilities (when some are required). -/
def isAvailable (now : ℕ) (heartbeatTimeoutMs : ℕ) (capabilities : Option (List String))
    (w : WorkerState) : Bool :=
  !(w.status = WorkerStatus.offline || w.status = WorkerStatus.draining) &&
  !(now - w.lastHeartbeat > heartbeatTimeoutMs) &&
  !(w.activeTasks ≥ w.maxConcurrency) &&
  (match capabilities with
   | some caps => caps.isEmpty || caps.all (fun c => w.capabilities.contains c)
   | none => true)

/-- `WorkerRegistry.getAvailable`: the available workers in registry
(insertion) order. -/
def getAvailable (rs : Registry) (now : ℕ) (heartbeatTimeoutMs : ℕ)
    (capabilities : Option (List String)) : List WorkerState :=
  rs.filter (isAvailable now heartbeatTimeoutMs capabilities)

/-- `WorkerRegistry.pruneStale`: mark every worker whose last heartbeat
is older than the timeout as offline (ids of the pruned workers are
also returned by the code; only the resulting registry matters here). -/
def pruneStale (rs : Registry) (now : ℕ) (heartbeatTimeoutMs : ℕ) : Registry :=
  rs.map (fun w =>
    if now - w.lastHeartbeat > heartbeatTimeoutMs then
      { w with status := WorkerStatus.offline }
    else w)

/-- A worker-registry operation (the mutating API of `WorkerRegistry`). -/
inductive RegistryOp
  | register (w : WorkerState)
  | unregister (workerId : String)
  | heartbeat (workerId : String) (now : ℕ)
  | updateStatus (workerId : String) (status : WorkerStatus)
  | updateLoad (workerId : String) (load : ℚ) (activeTasks : ℕ)
  | pruneStale (now : ℕ) (heartbeatTimeoutMs : ℕ)
  | clear

/-- The `now` a `register` call stamps as `lastHeartbeat` is irrelevant
to the load invariant; apply ops with the heartbeat clock fixed at the
op's own timestamp where one exists, `0` for `register`. -/
def applyRegistryOp (rs : Registry) : RegistryOp → Registry
  | RegistryOp.register w => register rs w 0
  | RegistryOp.unregister workerId => unregister rs workerId
  | RegistryOp.heartbeat workerId now => heartbeatOp rs workerId now
  | RegistryOp.updateStatus workerId status => updateStatus rs workerId status
  | RegistryOp.updateLoad workerId load activeTasks => updateLoad rs workerId load activeTasks
  | RegistryOp.pruneStale now timeout => pruneStale rs now timeout
  | RegistryOp.clear => []

/-- Registry after a sequence of operations. -/
def applyRegistryOps (rs : Registry) : List RegistryOp → Registry
  | [] => rs
  | op :: rest => applyRegistryOps (applyRegistryOp rs op) rest

/-! ## Objective functions (`scorer/objectives.ts`) -/

/-- `DEFAULT_MAX_WAIT_MS` from `scorer/objectives.ts`. -/
def DEFAULT_MAX_WAIT_MS : ℚ := 60000

/-- `DEFAULT_MAX_PRIORITY` from `scorer/objectives.ts`. -/
def DEFAULT_MAX_PRIORITY : ℚ := 10

/-- `calculateWaitScore` from `scorer/objectives.ts`. -/
def calculateWaitScore (estimatedWaitMs maxWaitMs : ℚ) : ℚ :=
  if estimatedWaitMs ≤ 0 then 1
  else if estimatedWaitMs ≥ maxWaitMs then 0
  else 1 - estimatedWaitMs / maxWaitMs

/-- `calculateLoadScore` from `scorer/objectives.ts`. -/
def calculateLoadScore (currentLoad : ℚ) : ℚ :=
  1 - max 0 (min 1 currentLoad)

/-- `calculatePriorityScore` from `scorer/objectives.ts`. -/
def calculatePriorityScore (priority maxPriority : ℚ) : ℚ :=
  if priority ≤ 0 then 0
  else if priority ≥ maxPriority then 1
  else priority / maxPriority

/-- `estimateWaitTime` from `scorer/objectives.ts`: active task count
times the predicted duration (5000 ms when no prediction). -/
def estimateWaitTime (worker : WorkerState) (prediction : Option TaskPrediction) : ℚ :=
  let estimatedDuration :=
    match prediction with
    | some p => p.estimatedDurationMs
    | none => 5000
  (worker.activeTasks : ℚ) * estimatedDuration

/-- `isWorkerEligible` from `scorer/objectives.ts`: not offline or
draining, below max concurrency, and all required capabilities present
(when some are required).  Heartbeat staleness is not checked here. -/
def isWorkerEligible (worker : WorkerState) (requiredCapabilities : Option (List String)) :
    Bool :=
  if worker.status = WorkerStatus.offline || worker.status = WorkerStatus.draining then
    false
  else if worker.activeTasks ≥ worker.maxConcurrency then
    false
  else
    match requiredCapabilities with
    | some caps =>
      if caps.isEmpty then true
      else caps.all (fun c => worker.capabilities.contains c)
    | none => true

/-! ## Multi-objective scorer (`scorer/scorer.ts`) -/

/-- Scoring weights (`ScoringWeights`). -/
structure ScoringWeights where
  wait : ℚ
  load : ℚ
  priority : ℚ
deriving DecidableEq, Repr

/-- `DEFAULT_SCORING_WEIGHTS` from `scorer/scorer.ts`. -/
def DEFAULT_SCORING_WEIGHTS : ScoringWeights :=
  { wait := 4/10, load := 4/10, priority := 2/10 }

/-- Scorer configuration (`ScorerConfig`). -/
structure ScorerConfig where
  weights : ScoringWeights
  maxWaitMs : ℚ
  maxPriority : ℚ
deriving DecidableEq, Repr

/-- `DEFAULT_SCORER_CONFIG` from `scorer/scorer.ts`. -/
def DEFAULT_SCORER_CONFIG : ScorerConfig :=
  { weights := DEFAULT_SCORING_WEIGHTS
    maxWaitMs := DEFAULT_MAX_WAIT_MS
    maxPriority := DEFAULT_MAX_PRIORITY }

/-- Per-worker score (`WorkerScore`); the breakdown record of the code
is flattened into the three sub-score fields. -/
structure WorkerScore where
  workerId : String
  score : ℚ
  waitScore : ℚ
  loadScore : ℚ
  priorityScore : ℚ
deriving DecidableEq, Repr

/-- Scoring result (`ScoringResult`); the `reasoning` string is a
`toFixed`-formatted rendering of the winning score and is not
modelled. -/
structure ScoringResult where
  workerId : String
  score : ℚ
  alternatives : List WorkerScore
deriving DecidableEq, Repr

/-- `MultiObjectiveScorer.scoreWorker`. -/
def scoreWorker (cfg : ScorerConfig) (task : Task) (worker : WorkerState)
    (prediction : Option TaskPrediction) : WorkerScore :=
  let estimatedWaitMs := estimateWaitTime worker prediction
  let waitScore := calculateWaitScore estimatedWaitMs cfg.maxWaitMs
  let loadScore := calculateLoadScore worker.currentLoad
  let priorityScore := calculatePriorityScore task.priority cfg.maxPriority
  { workerId := worker.id
    score := cfg.weights.wait * waitScore + cfg.weights.load * loadScore +
      cfg.weights.priority * priorityScore
    waitScore := waitScore
    loadScore := loadScore
    priorityScore := priorityScore }

/-- One insertion step of the stable descending sort: the inserted
element goes in front of the first element whose score it matches or
exceeds.  Models `scores.sort((a, b) => b.score - a.score)`, which is
stable (ES2019). -/
def sortInsertDesc (a : WorkerScore) : List WorkerScore → List WorkerScore
  | [] => [a]
  | b :: l => if b.score ≤ a.score then a :: b :: l else b :: sortInsertDesc a l

/-- Stable sort by descending score. -/
def sortByScoreDesc : List WorkerScore → List WorkerScore
  | [] => []
  | x :: rest => sortInsertDesc x (sortByScoreDesc rest)

/-- The task's required capabilities (`task.metadata?.requiredCapabilities`). -/
def taskRequiredCapabilities (task : Task) : Option (List String) :=
  match task.metadata with
  | some md => md.requiredCapabilities
  | none => none

/-- `MultiObjectiveScorer.score`: filter eligible workers, score them,
sort by descending score (stable), pick the head as the best worker and
the tail as alternatives; `none` when no worker is eligible. -/
def scorerScore (cfg : ScorerConfig) (task : Task) (workers : List WorkerState)
    (prediction : Option TaskPrediction) : Option ScoringResult :=
  let requiredCapabilities := taskRequiredCapabilities task
  let eligibleWorkers := workers.filter (fun w => isWorkerEligible w requiredCapabilities)
  match sortByScoreDesc (eligibleWorkers.map (fun w => scoreWorker cfg task w prediction)) with
  | [] => none
  | best :: alternatives =>
    some { workerId := best.workerId, score := best.score, alternatives := alternatives }

/-- The first element of a nonempty list of worker scores attaining the
maximal score (head `x`, tail `l`).  This is the specification-side
characterisation used to state what the stable sort selects. -/
def firstMaxScore (x : WorkerScore) : List WorkerScore → WorkerScore
  | [] => x
  | y :: t =>
    let m := firstMaxScore y t
    if m.score ≤ x.score then x else m

/-! ## Round-robin fallback (`fallback/round-robin.ts`) -/

/-- Placeholder for the out-of-bounds list access `available[i]` that
the code can never reach (`lastIndex ≥ -1` always, so the advanced
cursor lies in `[0, length)`). -/
def phantomWorker : WorkerState :=
  { id := "", status := WorkerStatus.offline, capabilities := [], currentLoad := 0,
    lastHeartbeat := 0, activeTasks := 0, maxConcurrency := 0 }

/-- `RoundRobinScheduler.schedule`: recompute the available list under
the task's capability filter, return `none` on an empty list, otherwise
advance the cursor modulo the list length and pick that worker.  The
cursor (`lastIndex`) starts at `-1` and is returned updated. -/
def rrSchedule (lastIndex : ℤ) (rs : Registry) (now : ℕ) (heartbeatTimeoutMs : ℕ)
    (task : Task) (reason : SchedulingReason) : ℤ × Option SchedulingDecision :=
  let available := getAvailable rs now heartbeatTimeoutMs (taskRequiredCapabilities task)
  if available.isEmpty then
    (lastIndex, none)
  else
    let nextIndex := (lastIndex + 1) % (available.length : ℤ)
    let selectedWorker := available.getD nextIndex.toNat phantomWorker
    (nextIndex,
     some { taskId := task.id
            workerId := selectedWorker.id
            timestamp := now
            usedFallback := true
            prediction := none
            reason := reason })

/-- `N` consecutive `schedule` calls: the final cursor and the decisions
in call order. -/
def rrRun (lastIndex : ℤ) (rs : Registry) (now : ℕ) (heartbeatTimeoutMs : ℕ)
    (task : Task) (reason : SchedulingReason) : ℕ → ℤ × List (Option SchedulingDecision)
  | 0 => (lastIndex, [])
  | n + 1 =>
    let step := rrSchedule lastIndex rs now heartbeatTimeoutMs task reason
    let rest := rrRun step.1 rs now heartbeatTimeoutMs task reason n
    (rest.1, step.2 :: rest.2)

/-- Spec-side rotation model: the slot indices visited by `n`
consecutive cursor advances of a `K`-slot rotation whose first visit is
slot `s % K`. -/
def rrIndices (s K : ℕ) (n : ℕ) : List ℕ :=
  (List.range n).map (fun t => (s + t) % K)

/-! ## Dispatcher and circuit breaker (`dispatcher/dispatcher.ts`) -/

/-- Circuit breaker state (`CircuitBreakerState` in
`interfaces/types.ts`); `lastFailure` is an epoch-millisecond
timestamp when set. -/
structure CircuitBreakerState where
  failures : ℕ
  lastFailure : Option ℕ
  isOpen : Bool
deriving DecidableEq, Repr

/-- The breaker a fresh `Dispatcher` constructs. -/
def initialCircuitBreaker : CircuitBreakerState :=
  { failures := 0, lastFailure := none, isOpen := false }

/-- `Dispatcher.recordFailure`: increment the consecutive-failure
counter, stamp the failure time, and open the breaker when the counter
reaches the fallback threshold. -/
def recordFailure (cb : CircuitBreakerState) (now : ℕ) (fallbackThreshold : ℕ) :
    CircuitBreakerState :=
  let failures := cb.failures + 1
  { failures := failures
    lastFailure := some now
    isOpen := if failures ≥ fallbackThreshold then true else cb.isOpen }

/-- `Dispatcher.resetCircuitBreaker`: zero failures, clear the failure
time, close the breaker. -/
def resetCircuitBreaker : CircuitBreakerState :=
  { failures := 0, lastFailure := none, isOpen := false }

/-- `fallbackThreshold` of `DEFAULT_SCHEDULER_CONFIG`. -/
def DEFAULT_FALLBACK_THRESHOLD : ℕ := 3

/-- Outcome of the `await predictor.predict(task)` call inside
`dispatchTask`: an exception, or a `TaskPrediction | null` value. -/
inductive PredictOutcome
  | throw
  | ok (p : Option TaskPrediction)
deriving DecidableEq, Repr

/-- Dispatch result (`DispatchResult` in `interfaces/types.ts`). -/
structure DispatchResult where
  success : Bool
  decision : SchedulingDecision
  error : Option String
deriving DecidableEq, Repr

/-- The dispatcher state `dispatchTask` mutates: the circuit breaker it
owns and the fallback scheduler's round-robin cursor. -/
structure DispatcherState where
  cb : CircuitBreakerState
  rrLastIndex : ℤ
deriving DecidableEq, Repr

/-- Environment of one `dispatchTask` call: what the predictor call
would do, whether the Redis handle is set, and what the `publish` and
`xack` awaits would do (`Except.error` models a thrown exception). -/
structure DispatchEnv where
  predictOutcome : PredictOutcome
  redisPresent : Bool
  publishOutcome : Except String Unit
  ackOutcome : Except String Unit
deriving Repr

/-- Observable output of one `dispatchTask` call: the returned result,
the mutated dispatcher state, the channels published to and the stream
message ids acknowledged. -/
structure DispatchOutput where
  result : DispatchResult
  state : DispatcherState
  published : List String
  acks : List String
deriving DecidableEq, Repr

/-- The per-worker dispatch channel `"nexus:worker:" + workerId`. -/
def dispatchChannel (workerId : String) : String :=
  "nexus:worker:" ++ workerId

/-- The error string `dispatchTask` reports when no decision could be
formed. -/
def noWorkersMsg : String := "No workers available"

/-- The decision-forming phase of `dispatchTask` (everything before the
publish): try the predictor when the breaker is closed — a prediction
whose recommended worker exists and is neither offline nor draining
forms a `reason=prediction` decision and resets the breaker, a thrown
prediction records a failure — then fall back to round-robin when no
decision was formed, with reason `fallback_circuit_breaker` exactly when
the breaker is open at that point. -/
def dispatchDecide (st : DispatcherState) (rs : Registry) (now : ℕ)
    (heartbeatTimeoutMs : ℕ) (fallbackThreshold : ℕ) (task : Task)
    (outcome : PredictOutcome) : DispatcherState × Option SchedulingDecision :=
  let step1 : CircuitBreakerState × Option SchedulingDecision :=
    if st.cb.isOpen then (st.cb, none)
    else
      match outcome with
      | PredictOutcome.throw => (recordFailure st.cb now fallbackThreshold, none)
      | PredictOutcome.ok none => (st.cb, none)
      | PredictOutcome.ok (some p) =>
        match registryGet rs p.recommendedWorkerId with
        | some worker =>
          if worker.status ≠ WorkerStatus.offline ∧ worker.status ≠ WorkerStatus.draining then
            (resetCircuitBreaker,
             some { taskId := task.id
                    workerId := p.recommendedWorkerId
                    timestamp := now
                    usedFallback := false
                    prediction := some p
                    reason := SchedulingReason.prediction })
          else (st.cb, none)
        | none => (st.cb, none)
  match step1.2 with
  | some d => ({ st with cb := step1.1 }, some d)
  | none =>
    let reason :=
      if step1.1.isOpen then SchedulingReason.fallback_circuit_breaker
      else SchedulingReason.fallback_round_robin
    let fb := rrSchedule st.rrLastIndex rs now heartbeatTimeoutMs task reason
    ({ cb := step1.1, rrLastIndex := fb.1 }, fb.2)

/-- `Dispatcher.dispatchTask`: form a decision, then — when a decision
exists — publish the assignment on the per-worker channel and
acknowledge the stream message; a thrown publish (or ack) is caught and
reported as `success=false` with the decision retained.  When no worker
is available the result is a failure with error `No workers available`
and an empty placeholder decision. -/
def dispatchTask (st : DispatcherState) (rs : Registry) (now : ℕ)
    (heartbeatTimeoutMs : ℕ) (fallbackThreshold : ℕ) (task : Task)
    (messageId : Option String) (env : DispatchEnv) : DispatchOutput :=
  let decide := dispatchDecide st rs now heartbeatTimeoutMs fallbackThreshold task
    env.predictOutcome
  match decide.2 with
  | none =>
    { result :=
        { success := false
          decision :=
            { taskId := task.id, workerId := "", timestamp := now,
              usedFallback := true, prediction := none,
              reason := SchedulingReason.fallback_round_robin }
          error := some noWorkersMsg }
      state := decide.1
      published := []
      acks := [] }
  | some decision =>
    if env.redisPresent then
      match env.publishOutcome with
      | Except.error e =>
        { result := { success := false, decision := decision, error := some e }
          state := decide.1
          published := []
          acks := [] }
      | Except.ok _ =>
        match messageId with
        | none =>
          { result := { success := true, decision := decision, error := none }
            state := decide.1
            published := [dispatchChannel decision.workerId]
            acks := [] }
        | some mid =>
          match env.ackOutcome with
          | Except.error e =>
            { result := { success := false, decision := decision, error := some e }
              state := decide.1
              published := [dispatchChannel decision.workerId]
              acks := [] }
          | Except.ok _ =>
            { result := { success := true, decision := decision, error := none }
              state := decide.1
              published := [dispatchChannel decision.workerId]
              acks := [mid] }
    else
      { result := { success := true, decision := decision, error := none }
        state := decide.1
        published := []
        acks := [] }

/-- What the consume loop does with one stream entry and the result of
`parseTask` on its fields. -/
structure ConsumeEffect where
  dispatched : Option DispatchOutput
  acks : List String
deriving Repr

/-- One iteration of the inner loop of `Dispatcher.consumeLoop` over a
stream entry: a parsed task is dispatched with its message id; a parse
failure (`parseTask` returned `null` after logging the error) does
nothing further — the entry is neither dispatched nor acknowledged. -/
def processEntry (st : DispatcherState) (rs : Registry) (now : ℕ)
    (heartbeatTimeoutMs : ℕ) (fallbackThreshold : ℕ) (messageId : String)
    (parsed : Option Task) (env : DispatchEnv) : ConsumeEffect :=
  match parsed with
  | none => { dispatched := none, acks := [] }
  | some task =>
    let out := dispatchTask st rs now heartbeatTimeoutMs fallbackThreshold task
      (some messageId) env
    { dispatched := some out, acks := out.acks }

/-! ## Drift detector (`feedback/drift-detector.ts`) -/

/-- Drift detection configuration (`DriftConfig`). -/
structure DriftConfig where
  lowerThreshold : ℚ
  upperThreshold : ℚ
deriving DecidableEq, Repr

/-- `DEFAULT_DRIFT_CONFIG`: drift outside `[0.5, 2.0]`. -/
def DEFAULT_DRIFT_CONFIG : DriftConfig :=
  { lowerThreshold := 1/2, upperThreshold := 2 }

/-- Drift severity (`DriftResult['severity']`). -/
inductive Severity
  | none
  | minor
  | major
deriving DecidableEq, Repr

/-- Which message branch of `detectDrift` fired (the code formats a
human-readable string; only the branch is modelled). -/
inductive DriftMessage
  | invalidPrediction
  | accurate
  | underprediction
  | overprediction
deriving DecidableEq, Repr

/-- Drift detection result (`DriftResult`); `ratio = none` models the
IEEE `Infinity` the code stores for a non-positive prediction. -/
structure DriftResult where
  isDrift : Bool
  ratio : Option ℚ
  severity : Severity
  message : DriftMessage
deriving DecidableEq, Repr

/-- `detectDrift` from `feedback/drift-detector.ts`: a non-positive
prediction short-circuits to a major drift with infinite ratio;
otherwise `ratio = actual / predicted` is drift outside the configured
band, with severity major beyond `ratio < 0.33` or `ratio > 3.0` and
minor otherwise. -/
def detectDrift (predicted actual : ℚ) (config : DriftConfig) : DriftResult :=
  if predicted ≤ 0 then
    { isDrift := true, ratio := Option.none, severity := Severity.major,
      message := DriftMessage.invalidPrediction }
  else
    let ratio := actual / predicted
    let isDrift := ratio < config.lowerThreshold || ratio > config.upperThreshold
    let severity :=
      if isDrift then
        if ratio < 33/100 || ratio > 3 then Severity.major else Severity.minor
      else Severity.none
    let message :=
      if !isDrift then DriftMessage.accurate
      else if actual > predicted then DriftMessage.underprediction
      else DriftMessage.overprediction
    { isDrift := isDrift, ratio := some ratio, severity := severity, message := message }

/-- The drift check of `CompletionSubscriber.processCompletion`: run
only when the event carries a predicted duration that is truthy and
positive (`if (predicted && predicted > 0)`). -/
def completionDriftCheck (predictedDurationMs : Option ℚ) (actualDurationMs : ℚ)
    (config : DriftConfig) : Option DriftResult :=
  match predictedDurationMs with
  | some p => if 0 < p then some (detectDrift p actualDurationMs config) else Option.none
  | none => Option.none

/-! ## Spec-side helper definitions -/

/-- Whether a registry operation, if it is a `register`, supplies a
worker whose `currentLoad` already lies in `[0, 1]` (the code stores it
unclamped). -/
def registerOpLoadOK : RegistryOp → Bool
  | RegistryOp.register w => decide (0 ≤ w.currentLoad ∧ w.currentLoad ≤ 1)
  | _ => true

/-- Number of `t < n` with `(s + t) % k = i`: how many of `n`
consecutive cursor advances land on slot `i` of a `k`-slot rotation. -/
def residueCount (s k i n : ℕ) : ℕ :=
  (List.range n).countP (fun t => decide ((s + t) % k = i))

/-! ## Concrete fixtures for witnesses and counterexamples -/

/-- An idle worker with spare capacity and a fresh heartbeat. -/
def wIdle : WorkerState :=
  { id := "w1", status := WorkerStatus.idle, capabilities := [], currentLoad := 0,
    lastHeartbeat := 0, activeTasks := 0, maxConcurrency := 10 }

/-- A second idle worker. -/
def wIdle2 : WorkerState :=
  { id := "w2", status := WorkerStatus.idle, capabilities := [], currentLoad := 0,
    lastHeartbeat := 0, activeTasks := 0, maxConcurrency := 10 }

/-- Two workers with identical telemetry (hence identical scores) whose
ids are ordered against their list position. -/
def wTieA : WorkerState :=
  { id := "w1", status := WorkerStatus.idle, capabilities := [], currentLoad := 1/2,
    lastHeartbeat := 0, activeTasks := 0, maxConcurrency := 10 }

/-- See `wTieA`. -/
def wTieB : WorkerState :=
  { id := "w2", status := WorkerStatus.idle, capabilities := [], currentLoad := 1/2,
    lastHeartbeat := 0, activeTasks := 0, maxConcurrency := 10 }

/-- A worker registered with an out-of-range load. -/
def wOver : WorkerState :=
  { id := "w9", status := WorkerStatus.idle, capabilities := [], currentLoad := 2,
    lastHeartbeat := 0, activeTasks := 0, maxConcurrency := 4 }

/-- A task with no capability requirements. -/
def taskA : Task :=
  { id := "task-1", type := "batch", priority := 5, createdAt := 0, metadata := none }

/-- The task type of `taskA`. -/
def tBatch : String := "batch"

/-- A prediction recommending a worker id absent from the registry. -/
def predGhost : TaskPrediction :=
  { taskId := "task-1", recommendedWorkerId := "ghost", confidence := 1,
    estimatedDurationMs := 100 }

/-- A prediction recommending `wIdle`. -/
def predToW1 : TaskPrediction :=
  { taskId := "task-1", recommendedWorkerId := "w1", confidence := 1,
    estimatedDurationMs := 100 }

/-- Dispatcher state of a fresh dispatcher. -/
def stFresh : DispatcherState :=
  { cb := initialCircuitBreaker, rrLastIndex := -1 }

/-- A closed breaker that has accumulated one failure. -/
def cbOneFailure : CircuitBreakerState :=
  { failures := 1, lastFailure := some 5, isOpen := false }

/-- Dispatcher state with `cbOneFailure`. -/
def stOneFailure : DispatcherState :=
  { cb := cbOneFailure, rrLastIndex := -1 }

/-- Environment: predictor returns `null`, Redis healthy. -/
def envOkNoPred : DispatchEnv :=
  { predictOutcome := PredictOutcome.ok none, redisPresent := true,
    publishOutcome := Except.ok (), ackOutcome := Except.ok () }

/-- Environment: predictor returns `predGhost`, Redis healthy. -/
def envGhostPred : DispatchEnv :=
  { predictOutcome := PredictOutcome.ok (some predGhost), redisPresent := true,
    publishOutcome := Except.ok (), ackOutcome := Except.ok () }

/-- Environment: predictor returns `predToW1`, Redis healthy. -/
def envW1Pred : DispatchEnv :=
  { predictOutcome := PredictOutcome.ok (some predToW1), redisPresent := true,
    publishOutcome := Except.ok (), ackOutcome := Except.ok () }

/-- The error message `envPublishFail` throws. -/
def errBoom : String := "boom"

/-- Environment: predictor returns `null`, `publish` throws. -/
def envPublishFail : DispatchEnv :=
  { predictOutcome := PredictOutcome.ok none, redisPresent := true,
    publishOutcome := Except.error errBoom, ackOutcome := Except.ok () }

/-- A stream message id. -/
def msg1 : String := "100-0"

/-- A recorded EMA state for task type `tBatch`. -/
def emaA : EMAState :=
  { taskType := "batch", ema := 1200, sampleCount := 50, lastUpdated := 0 }

/-- A predictor map holding `emaA` under `tBatch`. -/
def predictorM : PredictorState := [(tBatch, emaA)]

/-- A first feedback call for `tBatch` with actual duration 1000. -/
def evBatch1 : FeedbackEvent :=
  { taskType := some tBatch, actualDurationMs := 1000, now := 1 }

/-- The EMA state `evBatch1` leaves behind. -/
def emaB1 : EMAState :=
  { taskType := "batch", ema := 1000, sampleCount := 1, lastUpdated := 1 }

/-- The round-robin decision a fresh dispatcher forms for `taskA` over
the registry `[wIdle]`. -/
def decRR1 : SchedulingDecision :=
  { taskId := "task-1", workerId := "w1", timestamp := 0, usedFallback := true,
    prediction := none, reason := SchedulingReason.fallback_round_robin }

/-- Register `wIdle`, then write an out-of-range load (clamped to 1). -/
def opsC7 : List RegistryOp :=
  [RegistryOp.register wIdle, RegistryOp.updateLoad wIdle.id 5 3]

/-- The worker state `opsC7` produces. -/
def wC7Result : WorkerState :=
  { id := "w1", status := WorkerStatus.idle, capabilities := [], currentLoad := 1,
    lastHeartbeat := 0, activeTasks := 3, maxConcurrency := 10 }

/-! ## Predictor map lemmas -/

theorem lookupEMA_setEMA_self (m : PredictorState) (t : String) (s : EMAState) :
    lookupEMA (setEMA m t s) t = some s := by
  induction m with
  | nil => simp [setEMA, lookupEMA]
  | cons hd rest ih =>
    obtain ⟨k, s₀⟩ := hd
    by_cases h : k = t
    · simp [setEMA, lookupEMA, h]
    · simp [setEMA, lookupEMA, h, ih]

/-- Every entry of `setEMA m t s` is either `(t, s)` or an entry of `m`. -/
theorem mem_setEMA (m : PredictorState) (t : String) (s : EMAState)
    (e : String × EMAState) (he : e ∈ setEMA m t s) :
    e = (t, s) ∨ e ∈ m := by
  induction m with
  | nil =>
    simp [setEMA] at he
    exact Or.inl he
  | cons hd rest ih =>
    obtain ⟨k, s₀⟩ := hd
    by_cases h : k = t
    · simp [setEMA, h] at he
      rcases he with he | he
      · exact Or.inl (by simp [he, h])
      · exact Or.inr (List.mem_cons_of_mem _ he)
    · simp [setEMA, h] at he
      rcases he with he | he
      · exact Or.inr (by simp [he])
      · rcases ih he with h' | h'
        · exact Or.inl h'
        · exact Or.inr (List.mem_cons_of_mem _ h')

/-- Any state stored by a `feedback` call has a positive sample count. -/
theorem feedback_mem_sampleCount_pos (m : PredictorState) (taskType : Option String)
    (v : ℚ) (now : ℕ) (cfg : HeuristicPredictorConfig)
    (hm : ∀ e ∈ m, 0 < (e.2).sampleCount) :
    ∀ e ∈ feedback m taskType v now cfg, 0 < (e.2).sampleCount := by
  intro e he
  match taskType with
  | none => exact hm e he
  | some t =>
    simp only [feedback] at he
    rcases mem_setEMA _ _ _ _ he with h | h
    · subst h
      simp [updateEMAState]
    · exact hm e h

/-- Invariant: every state in a map reached from the empty map by
`feedback` calls has a positive sample count. -/
theorem applyFeedbacks_sampleCount_pos (cfg : HeuristicPredictorConfig)
    (events : List FeedbackEvent) (m : PredictorState)
    (hm : ∀ e ∈ m, 0 < (e.2).sampleCount) :
    ∀ e ∈ applyFeedbacks cfg m events, 0 < (e.2).sampleCount := by
  induction events generalizing m with
  | nil => exact hm
  | cons ev rest ih =>
    exact ih _ (feedback_mem_sampleCount_pos m ev.taskType ev.actualDurationMs ev.now cfg hm)

/-- A `some` result of `lookupEMA` is an entry of the map. -/
theorem lookupEMA_mem (m : PredictorState) (t : String) (s : EMAState)
    (h : lookupEMA m t = some s) : (t, s) ∈ m := by
  induction m with
  | nil => simp [lookupEMA] at h
  | cons hd rest ih =>
    obtain ⟨k, s₀⟩ := hd
    by_cases hk : k = t
    · subst hk
      simp [lookupEMA] at h
      simp [h]
    · simp [lookupEMA, hk] at h
      exact List.mem_cons_of_mem _ (ih h)

/-! ## C10: drift detection is total on non-positive predictions -/

/-- C10: `detectDrift` is total; for every `predicted ≤ 0` it performs
no division and returns `isDrift = true`, an infinite ratio (`none`
models the IEEE `Infinity` the code stores), and severity `major`,
regardless of the actual value and of the configured thresholds. -/
theorem C10_detectDrift_nonpositive (predicted actual : ℚ) (config : DriftConfig)
    (h : predicted ≤ 0) :
    detectDrift predicted actual config =
      { isDrift := true, ratio := Option.none, severity := Severity.major,
        message := DriftMessage.invalidPrediction } := by
  simp [detectDrift, h]

/-- Witness for C10 at `predicted = 0`, `actual = 777`. -/
theorem C10_detectDrift_nonpositive_witness :
    detectDrift 0 777 DEFAULT_DRIFT_CONFIG =
      { isDrift := true, ratio := Option.none, severity := Severity.major,
        message := DriftMessage.invalidPrediction } :=
  C10_detectDrift_nonpositive 0 777 DEFAULT_DRIFT_CONFIG (by norm_num)

/-! ## C8: drift classification -/

/-- C8 counterexample: at `predicted = 1000`, `actual = 332` the ratio
`0.332` lies below `1/3`, so the claim's `±3×` rule demands severity
`major`; the code compares against the literal `0.33` and returns
`minor`. -/
theorem C8_counterexample :
    (332 : ℚ) / 1000 < 1/3 ∧
    (detectDrift 1000 332 DEFAULT_DRIFT_CONFIG).isDrift = true ∧
    (detectDrift 1000 332 DEFAULT_DRIFT_CONFIG).ratio = some (332/1000) ∧
    (detectDrift 1000 332 DEFAULT_DRIFT_CONFIG).severity = Severity.minor := by
  refine ⟨by norm_num, ?_, ?_, ?_⟩ <;> simp [detectDrift, DEFAULT_DRIFT_CONFIG] <;> norm_num

/-- For a positive prediction the drift flag is exactly the band test
on `ratio = actual / predicted`. -/
theorem detectDrift_isDrift_iff (predicted actual : ℚ) (cfg : DriftConfig)
    (h : 0 < predicted) :
    (detectDrift predicted actual cfg).isDrift = true ↔
      (actual / predicted < cfg.lowerThreshold ∨ cfg.upperThreshold < actual / predicted) := by
  have hnp : ¬ predicted ≤ 0 := not_le.mpr h
  simp [detectDrift, hnp]

/-- For a positive prediction the reported ratio is `actual / predicted`. -/
theorem detectDrift_ratio (predicted actual : ℚ) (cfg : DriftConfig)
    (h : 0 < predicted) :
    (detectDrift predicted actual cfg).ratio = some (actual / predicted) := by
  have hnp : ¬ predicted ≤ 0 := not_le.mpr h
  simp [detectDrift, hnp]

/-- For a positive prediction inside the drift band, the severity is
decided by the `0.33` / `3.0` boundaries. -/
theorem detectDrift_severity_of_drift (predicted actual : ℚ) (cfg : DriftConfig)
    (h : 0 < predicted)
    (hd : actual / predicted < cfg.lowerThreshold ∨ cfg.upperThreshold < actual / predicted) :
    (detectDrift predicted actual cfg).severity =
      if actual / predicted < 33/100 ∨ 3 < actual / predicted then Severity.major
      else Severity.minor := by
  have hnp : ¬ predicted ≤ 0 := not_le.mpr h
  have hb : (decide (actual / predicted < cfg.lowerThreshold) ||
      decide (actual / predicted > cfg.upperThreshold)) = true := by
    rcases hd with hd | hd <;> simp [hd]
  by_cases hm : actual / predicted < 33/100 ∨ 3 < actual / predicted
  · have hbm : (decide (actual / predicted < 33/100) ||
        decide (actual / predicted > 3)) = true := by
      rcases hm with hm | hm <;> simp [hm]
    simp [detectDrift, hnp, hb, hbm, hm]
  · push_neg at hm
    simp [detectDrift, hnp, hb, not_lt.mpr hm.1, not_lt.mpr hm.2, hm]

/-- C8 amended: for every completion event carrying a positive
predicted duration, with `ratio = actual / predicted`, drift is flagged
iff `ratio < 0.5` or `ratio > 2.0`, and a flagged drift has severity
`major` exactly when `ratio < 0.33` or `ratio > 3.0` (the code's
boundary is the literal `0.33`, not `1/3`), `minor` otherwise. -/
theorem C8_drift_classification (predicted actual : ℚ) (h : 0 < predicted) :
    completionDriftCheck (some predicted) actual DEFAULT_DRIFT_CONFIG =
      some (detectDrift predicted actual DEFAULT_DRIFT_CONFIG) ∧
    (detectDrift predicted actual DEFAULT_DRIFT_CONFIG).ratio = some (actual / predicted) ∧
    ((detectDrift predicted actual DEFAULT_DRIFT_CONFIG).isDrift = true ↔
      (actual / predicted < 1/2 ∨ 2 < actual / predicted)) ∧
    ((detectDrift predicted actual DEFAULT_DRIFT_CONFIG).isDrift = true →
      ((detectDrift predicted actual DEFAULT_DRIFT_CONFIG).severity = Severity.major ↔
        (actual / predicted < 33/100 ∨ 3 < actual / predicted))) ∧
    ((detectDrift predicted actual DEFAULT_DRIFT_CONFIG).isDrift = true →
      ((detectDrift predicted actual DEFAULT_DRIFT_CONFIG).severity = Severity.minor ↔
        (33/100 ≤ actual / predicted ∧ actual / predicted ≤ 3))) := by
  have hlow : DEFAULT_DRIFT_CONFIG.lowerThreshold = 1/2 := rfl
  have hup : DEFAULT_DRIFT_CONFIG.upperThreshold = 2 := rfl
  refine ⟨by simp [completionDriftCheck, h], detectDrift_ratio predicted actual _ h, ?_, ?_, ?_⟩
  · rw [detectDrift_isDrift_iff predicted actual _ h, hlow, hup]
  · intro hdrift
    have hd := (detectDrift_isDrift_iff predicted actual _ h).mp hdrift
    rw [detectDrift_severity_of_drift predicted actual _ h hd]
    by_cases hm : actual / predicted < 33/100 ∨ 3 < actual / predicted
    · simp [hm]
    · simp [hm]
  · intro hdrift
    have hd := (detectDrift_isDrift_iff predicted actual _ h).mp hdrift
    rw [detectDrift_severity_of_drift predicted actual _ h hd]
    by_cases hm : actual / predicted < 33/100 ∨ 3 < actual / predicted
    · simp only [if_pos hm]
      constructor
      · intro hc; exact absurd hc (by simp)
      · rintro ⟨ha, hb⟩
        rcases hm with hm | hm <;> linarith
    · have hm' := hm
      push_neg at hm'
      simp only [if_neg hm]
      exact ⟨fun _ => hm', fun _ => trivial⟩

/-- Witness for C8 amended at `predicted = 1000`, `actual = 3000`
(ratio 3: drift, minor). -/
theorem C8_drift_classification_witness :
    (0 : ℚ) < 1000 ∧
    ((detectDrift 1000 3000 DEFAULT_DRIFT_CONFIG).isDrift = true ↔
      ((3000 : ℚ) / 1000 < 1/2 ∨ 2 < (3000 : ℚ) / 1000)) :=
  ⟨by norm_num, (C8_drift_classification 1000 3000 (by norm_num)).2.2.1⟩

/-! ## C2: handling of malformed stream messages -/

/-- C2 counterexample: a stream entry whose fields fail to parse
(`parseTask` returned `null`) is neither dispatched nor acknowledged —
the ack list of the loop iteration is empty, contradicting the claimed
poison-message draining. -/
theorem C2_counterexample :
    (processEntry stFresh [] 0 30000 3 msg1 Option.none envOkNoPred).acks = [] ∧
    (processEntry stFresh [] 0 30000 3 msg1 Option.none envOkNoPred).dispatched =
      Option.none :=
  ⟨rfl, rfl⟩

/-- C2 amended: for every stream message whose fields fail to parse
into a task, the dispatcher loop logs the error and merely skips the
message — it is neither dispatched nor acknowledged, so it stays
pending in the consumer group instead of being consumed. -/
theorem C2_parse_failure_skips_without_ack (st : DispatcherState) (rs : Registry)
    (now heartbeatTimeoutMs fallbackThreshold : ℕ) (messageId : String)
    (env : DispatchEnv) :
    (processEntry st rs now heartbeatTimeoutMs fallbackThreshold messageId
       Option.none env).acks = [] ∧
    (processEntry st rs now heartbeatTimeoutMs fallbackThreshold messageId
       Option.none env).dispatched = Option.none :=
  ⟨rfl, rfl⟩

/-! ## C3: publish-failure atomicity -/

/-- C3: for every `dispatchTask` call in which a scheduling decision
was formed but the publish to the per-worker channel throws, the result
has `success = false` with that decision retained and the thrown error
reported, and no acknowledgment (and no publish) is recorded for the
stream message. -/
theorem C3_publish_failure_atomicity (st : DispatcherState) (rs : Registry)
    (now heartbeatTimeoutMs fallbackThreshold : ℕ) (task : Task)
    (messageId : Option String) (env : DispatchEnv) (d : SchedulingDecision) (e : String)
    (hdec : (dispatchDecide st rs now heartbeatTimeoutMs fallbackThreshold task
      env.predictOutcome).2 = some d)
    (hredis : env.redisPresent = true)
    (hpub : env.publishOutcome = Except.error e) :
    (dispatchTask st rs now heartbeatTimeoutMs fallbackThreshold task messageId
       env).result.success = false ∧
    (dispatchTask st rs now heartbeatTimeoutMs fallbackThreshold task messageId
       env).result.decision = d ∧
    (dispatchTask st rs now heartbeatTimeoutMs fallbackThreshold task messageId
       env).result.error = some e ∧
    (dispatchTask st rs now heartbeatTimeoutMs fallbackThreshold task messageId
       env).acks = [] ∧
    (dispatchTask st rs now heartbeatTimeoutMs fallbackThreshold task messageId
       env).published = [] := by
  simp [dispatchTask, hdec, hredis, hpub]

/-- Witness for C3: a fresh dispatcher over `[wIdle]` forms the
round-robin decision `decRR1`; with `publish` throwing `boom` the
result fails with the decision retained and nothing acked. -/
theorem C3_publish_failure_atomicity_witness :
    (dispatchTask stFresh [wIdle] 0 30000 3 taskA (some msg1)
       envPublishFail).result.success = false ∧
    (dispatchTask stFresh [wIdle] 0 30000 3 taskA (some msg1)
       envPublishFail).result.decision = decRR1 ∧
    (dispatchTask stFresh [wIdle] 0 30000 3 taskA (some msg1)
       envPublishFail).result.error = some errBoom ∧
    (dispatchTask stFresh [wIdle] 0 30000 3 taskA (some msg1)
       envPublishFail).acks = [] ∧
    (dispatchTask stFresh [wIdle] 0 30000 3 taskA (some msg1)
       envPublishFail).published = [] :=
  C3_publish_failure_atomicity stFresh [wIdle] 0 30000 3 taskA (some msg1)
    envPublishFail decRR1 errBoom (by decide) rfl rfl

/-! ## C7: registry load invariant -/

/-- C7 counterexample: `register` stores the supplied `currentLoad`
unclamped, so registering a worker with load 2 puts a state with
`currentLoad = 2 ∉ [0, 1]` into the registry. -/
theorem C7_counterexample :
    applyRegistryOps [] [RegistryOp.register wOver] = [wOver] ∧
    1 < wOver.currentLoad := by
  constructor <;> decide

/-- Every worker produced by one registry operation keeps its load in
`[0, 1]`, provided a `register` supplies an in-range load. -/
theorem applyRegistryOp_load_invariant (rs : Registry) (op : RegistryOp)
    (hrs : ∀ w ∈ rs, 0 ≤ w.currentLoad ∧ w.currentLoad ≤ 1)
    (hop : registerOpLoadOK op = true) :
    ∀ w ∈ applyRegistryOp rs op, 0 ≤ w.currentLoad ∧ w.currentLoad ≤ 1 := by
  intro w hw
  cases op with
  | register w0 =>
    have hw0 : 0 ≤ w0.currentLoad ∧ w0.currentLoad ≤ 1 := by
      simpa [registerOpLoadOK] using hop
    simp only [applyRegistryOp, register] at hw
    by_cases hex : rs.any (fun w' => w'.id = w0.id)
    · simp only [hex, if_true, List.mem_map] at hw
      obtain ⟨w', hw', rfl⟩ := hw
      by_cases hid : w'.id = w0.id
      · simpa [hid] using hw0
      · simpa [hid] using hrs w' hw'
    · simp only [hex, if_false] at hw
      rcases List.mem_append.mp hw with hw | hw
      · exact hrs w hw
      · rw [List.mem_singleton] at hw
        subst hw
        simpa using hw0
  | unregister workerId =>
    simp only [applyRegistryOp, unregister, List.mem_filter] at hw
    exact hrs w hw.1
  | heartbeat workerId now =>
    simp only [applyRegistryOp, heartbeatOp, List.mem_map] at hw
    obtain ⟨w', hw', rfl⟩ := hw
    by_cases hid : w'.id = workerId
    · simpa [hid] using hrs w' hw'
    · simpa [hid] using hrs w' hw'
  | updateStatus workerId status =>
    simp only [applyRegistryOp, updateStatus, List.mem_map] at hw
    obtain ⟨w', hw', rfl⟩ := hw
    by_cases hid : w'.id = workerId
    · simpa [hid] using hrs w' hw'
    · simpa [hid] using hrs w' hw'
  | updateLoad workerId load activeTasks =>
    simp only [applyRegistryOp, updateLoad, List.mem_map] at hw
    obtain ⟨w', hw', rfl⟩ := hw
    by_cases hid : w'.id = workerId
    · simp only [hid, if_true]
      refine ⟨le_max_left 0 _, max_le ?_ (min_le_left 1 load)⟩
      norm_num
    · simpa [hid] using hrs w' hw'
  | pruneStale now timeout =>
    simp only [applyRegistryOp, pruneStale, List.mem_map] at hw
    obtain ⟨w', hw', rfl⟩ := hw
    by_cases hst : now - w'.lastHeartbeat > timeout
    · simpa [hst] using hrs w' hw'
    · simpa [hst] using hrs w' hw'
  | clear =>
    simp [applyRegistryOp] at hw

/-- The load invariant is preserved along any operation sequence. -/
theorem applyRegistryOps_load_invariant (ops : List RegistryOp) (rs : Registry)
    (hrs : ∀ w ∈ rs, 0 ≤ w.currentLoad ∧ w.currentLoad ≤ 1)
    (hops : ops.all registerOpLoadOK = true) :
    ∀ w ∈ applyRegistryOps rs ops, 0 ≤ w.currentLoad ∧ w.currentLoad ≤ 1 := by
  induction ops generalizing rs with
  | nil => exact hrs
  | cons op rest ih =>
    simp only [List.all_cons, Bool.and_eq_true] at hops
    exact ih _ (applyRegistryOp_load_invariant rs op hrs hops.1) hops.2

/-- C7 amended: after any sequence of worker-registry operations
(register, updateLoad, heartbeat, updateStatus, pruneStale, unregister,
clear) from the empty registry, every held `WorkerState` has
`currentLoad ∈ [0, 1]` — provided each `register` already supplies a
load in `[0, 1]`: `updateLoad` clamps its argument, but `register`
stores the given load unclamped. -/
theorem C7_registry_load_invariant (ops : List RegistryOp)
    (hops : ops.all registerOpLoadOK = true) :
    ∀ w ∈ applyRegistryOps [] ops, 0 ≤ w.currentLoad ∧ w.currentLoad ≤ 1 :=
  applyRegistryOps_load_invariant ops [] (by simp) hops

/-- Witness for C7 amended: register `wIdle` then write load 5; the
resulting worker's load is clamped into `[0, 1]`. -/
theorem C7_registry_load_invariant_witness :
    0 ≤ wC7Result.currentLoad ∧ wC7Result.currentLoad ≤ 1 :=
  C7_registry_load_invariant opsC7 (by decide) wC7Result (by decide)

/-! ## C4: EMA feedback law -/

/-- C4: on any predictor state reachable by `feedback` calls from the
empty map, `feedback(taskType, actual)` initializes a new type to
`ema = actual, sampleCount = 1`, and updates a known type to
`ema = α·actual + (1−α)·previous` with the sample count incremented by
exactly 1. -/
theorem C4_ema_feedback_law (cfg : HeuristicPredictorConfig)
    (events : List FeedbackEvent) (t : String) (v : ℚ) (now : ℕ) :
    (lookupEMA (applyFeedbacks cfg [] events) t = none →
      ∃ s', lookupEMA (feedback (applyFeedbacks cfg [] events) (some t) v now cfg) t =
          some s' ∧ s'.ema = v ∧ s'.sampleCount = 1) ∧
    (∀ s, lookupEMA (applyFeedbacks cfg [] events) t = some s →
      ∃ s', lookupEMA (feedback (applyFeedbacks cfg [] events) (some t) v now cfg) t =
          some s' ∧ s'.ema = cfg.alpha * v + (1 - cfg.alpha) * s.ema ∧
          s'.sampleCount = s.sampleCount + 1) := by
  constructor
  · intro hnone
    have hf : feedback (applyFeedbacks cfg [] events) (some t) v now cfg =
        setEMA (applyFeedbacks cfg [] events) t
          (updateEMAState (initializeEMA t cfg.defaultDurationMs now) v cfg.alpha now) := by
      simp [feedback, hnone]
    refine ⟨_, by rw [hf, lookupEMA_setEMA_self], ?_, ?_⟩
    · simp [updateEMAState, initializeEMA]
    · simp [updateEMAState, initializeEMA]
  · intro s hs
    have hpos : 0 < s.sampleCount :=
      applyFeedbacks_sampleCount_pos cfg events [] (by simp) (t, s) (lookupEMA_mem _ _ _ hs)
    have hf : feedback (applyFeedbacks cfg [] events) (some t) v now cfg =
        setEMA (applyFeedbacks cfg [] events) t (updateEMAState s v cfg.alpha now) := by
      simp [feedback, hs]
    refine ⟨_, by rw [hf, lookupEMA_setEMA_self], ?_, ?_⟩
    · simp [updateEMAState, updateEMA, Nat.pos_iff_ne_zero.mp hpos]
    · simp [updateEMAState]

/-- Witness for C4: a fresh type gets `ema = 250, count = 1`; after one
sample of 1000, feedback with 2000 yields the α-blend and count 2. -/
theorem C4_ema_feedback_law_witness :
    (∃ s', lookupEMA (feedback (applyFeedbacks DEFAULT_PREDICTOR_CONFIG [] [])
        (some tBatch) 250 7 DEFAULT_PREDICTOR_CONFIG) tBatch = some s' ∧
        s'.ema = 250 ∧ s'.sampleCount = 1) ∧
    (∃ s', lookupEMA (feedback (applyFeedbacks DEFAULT_PREDICTOR_CONFIG [] [evBatch1])
        (some tBatch) 2000 9 DEFAULT_PREDICTOR_CONFIG) tBatch = some s' ∧
        s'.ema = DEFAULT_PREDICTOR_CONFIG.alpha * 2000 +
          (1 - DEFAULT_PREDICTOR_CONFIG.alpha) * emaB1.ema ∧
        s'.sampleCount = emaB1.sampleCount + 1) :=
  ⟨(C4_ema_feedback_law DEFAULT_PREDICTOR_CONFIG [] tBatch 250 7).1 rfl,
   (C4_ema_feedback_law DEFAULT_PREDICTOR_CONFIG [evBatch1] tBatch 2000 9).2 emaB1
     (by decide)⟩

/-! ## C5: predict contract -/

/-- C5: under the default configuration, `predict` returns the stored
EMA with confidence `min(1, sampleCount / 100)` for a known task type,
and the 5000 ms default with confidence 0 for an unknown type. -/
theorem C5_predict_contract (m : PredictorState) (task : Task) :
    (∀ s, lookupEMA m task.type = some s →
      (predict m task DEFAULT_PREDICTOR_CONFIG).estimatedDurationMs = s.ema ∧
      (predict m task DEFAULT_PREDICTOR_CONFIG).confidence =
        min 1 ((s.sampleCount : ℚ) / 100)) ∧
    (lookupEMA m task.type = none →
      (predict m task DEFAULT_PREDICTOR_CONFIG).estimatedDurationMs = 5000 ∧
      (predict m task DEFAULT_PREDICTOR_CONFIG).confidence = 0) := by
  constructor
  · intro s hs
    constructor <;> simp [predict, hs, calculateConfidence, DEFAULT_PREDICTOR_CONFIG]
  · intro hnone
    constructor <;> simp [predict, hnone, DEFAULT_PREDICTOR_CONFIG]

/-- Witness for C5 on the map holding `emaA` (50 samples of type
`batch`) and the task `taskA` of that type. -/
theorem C5_predict_contract_witness :
    (predict predictorM taskA DEFAULT_PREDICTOR_CONFIG).estimatedDurationMs = emaA.ema ∧
    (predict predictorM taskA DEFAULT_PREDICTOR_CONFIG).confidence =
      min 1 ((emaA.sampleCount : ℚ) / 100) :=
  (C5_predict_contract predictorM taskA).1 emaA (by decide)

/-! ## C1: circuit breaker closes on success -/

/-- `dispatchTask` leaves the dispatcher state exactly as the
decision-forming phase left it; the publish phase never touches it. -/
theorem dispatchTask_state (st : DispatcherState) (rs : Registry)
    (now heartbeatTimeoutMs fallbackThreshold : ℕ) (task : Task)
    (messageId : Option String) (env : DispatchEnv) :
    (dispatchTask st rs now heartbeatTimeoutMs fallbackThreshold task messageId
       env).state =
      (dispatchDecide st rs now heartbeatTimeoutMs fallbackThreshold task
        env.predictOutcome).1 := by
  obtain ⟨po, rp, pub, ack⟩ := env
  simp only [dispatchTask]
  rcases hd : (dispatchDecide st rs now heartbeatTimeoutMs fallbackThreshold task po).2 with
    _ | d
  · simp
  · cases rp <;> cases pub <;> cases messageId <;> cases ack <;> simp

/-- C1 counterexample: with one accumulated failure and a closed
breaker, the predictor succeeds with a prediction whose recommended
worker is absent from the registry; `dispatchTask` leaves the breaker
untouched instead of resetting it. -/
theorem C1_counterexample :
    stOneFailure.cb.failures = 1 ∧ stOneFailure.cb.isOpen = false ∧
    envGhostPred.predictOutcome = PredictOutcome.ok (some predGhost) ∧
    (dispatchTask stOneFailure [] 0 30000 3 taskA Option.none
       envGhostPred).state.cb.failures = 1 ∧
    (dispatchTask stOneFailure [] 0 30000 3 taskA Option.none
       envGhostPred).state.cb.lastFailure = some 5 := by
  refine ⟨rfl, rfl, rfl, ?_, ?_⟩ <;> decide

/-- C1 amended: whenever the breaker is closed (in particular with any
number of accumulated failures) and `dispatchTask` obtains a successful
prediction whose recommended worker exists in the registry and is
neither offline nor draining, the breaker is reset to
`failures = 0, lastFailure = null, isOpen = false`.  When the breaker
is open the predictor is never invoked, so no prediction can be
obtained in that state. -/
theorem C1_breaker_closes_on_accepted_prediction (st : DispatcherState) (rs : Registry)
    (now heartbeatTimeoutMs fallbackThreshold : ℕ) (task : Task)
    (messageId : Option String) (env : DispatchEnv) (p : TaskPrediction) (w : WorkerState)
    (hopen : st.cb.isOpen = false)
    (hpred : env.predictOutcome = PredictOutcome.ok (some p))
    (hw : registryGet rs p.recommendedWorkerId = some w)
    (hoff : w.status ≠ WorkerStatus.offline)
    (hdr : w.status ≠ WorkerStatus.draining) :
    (dispatchTask st rs now heartbeatTimeoutMs fallbackThreshold task messageId
       env).state.cb = { failures := 0, lastFailure := none, isOpen := false } := by
  rw [dispatchTask_state, hpred]
  simp [dispatchDecide, hopen, hw, hoff, hdr, resetCircuitBreaker]

/-- Witness for C1 amended: a breaker with one accumulated failure is
fully reset when the prediction recommends the registered worker
`wIdle`. -/
theorem C1_breaker_closes_on_accepted_prediction_witness :
    stOneFailure.cb.failures = 1 ∧
    (dispatchTask stOneFailure [wIdle] 0 30000 3 taskA Option.none
       envW1Pred).state.cb = { failures := 0, lastFailure := none, isOpen := false } :=
  ⟨rfl, C1_breaker_closes_on_accepted_prediction stOneFailure [wIdle] 0 30000 3 taskA
    Option.none envW1Pred predToW1 wIdle rfl rfl (by decide) (by decide) (by decide)⟩

/-! ## C6: scorer tie-breaking -/

/-- C6 counterexample: two workers with identical telemetry tie on
score; the scorer keeps the input order rather than an ordering on
worker id — listing `w2` first selects `w2`, listing `w1` first selects
`w1` — so the tie is not broken by worker id. -/
theorem C6_counterexample :
    (scoreWorker DEFAULT_SCORER_CONFIG taskA wTieB Option.none).score =
      (scoreWorker DEFAULT_SCORER_CONFIG taskA wTieA Option.none).score ∧
    wTieA.id ≠ wTieB.id ∧
    (scorerScore DEFAULT_SCORER_CONFIG taskA [wTieB, wTieA] Option.none).map
      (fun r => r.workerId) = some wTieB.id ∧
    (scorerScore DEFAULT_SCORER_CONFIG taskA [wTieA, wTieB] Option.none).map
      (fun r => r.workerId) = some wTieA.id := by
  refine ⟨?_, by decide, ?_, ?_⟩ <;>
    norm_num [scorerScore, scoreWorker, sortByScoreDesc, sortInsertDesc, isWorkerEligible,
      taskRequiredCapabilities, estimateWaitTime, calculateWaitScore, calculateLoadScore,
      calculatePriorityScore, DEFAULT_SCORER_CONFIG, DEFAULT_SCORING_WEIGHTS,
      DEFAULT_MAX_WAIT_MS, DEFAULT_MAX_PRIORITY, wTieA, wTieB, taskA]

/-- The head of the stable descending sort is the first element of the
input attaining the maximal score. -/
theorem sortByScoreDesc_cons_eq (x : WorkerScore) (l : List WorkerScore) :
    ∃ t, sortByScoreDesc (x :: l) = firstMaxScore x l :: t := by
  induction l generalizing x with
  | nil => exact ⟨[], rfl⟩
  | cons y rest ih =>
    obtain ⟨t', ht'⟩ := ih y
    rw [show sortByScoreDesc (x :: y :: rest) =
      sortInsertDesc x (sortByScoreDesc (y :: rest)) from rfl, ht']
    by_cases h : (firstMaxScore y rest).score ≤ x.score
    · exact ⟨firstMaxScore y rest :: t', by simp [sortInsertDesc, h, firstMaxScore]⟩
    · exact ⟨sortInsertDesc x t', by simp [sortInsertDesc, h, firstMaxScore]⟩

/-- C6 amended: ties on the maximal score are broken by position in
the input worker list (the ES2019 sort is stable), so the scorer
selects the first eligible worker attaining the maximal score — not
the one least by worker id; being a pure function, repeated calls on
equal inputs yield the same chosen worker. -/
theorem C6_tie_break_by_input_order (cfg : ScorerConfig) (task : Task)
    (workers : List WorkerState) (prediction : Option TaskPrediction) :
    (workers.filter (fun w => isWorkerEligible w (taskRequiredCapabilities task)) = [] →
      scorerScore cfg task workers prediction = none) ∧
    (∀ w ws,
      workers.filter (fun w => isWorkerEligible w (taskRequiredCapabilities task)) =
        w :: ws →
      (scorerScore cfg task workers prediction).map (fun r => r.workerId) =
        some (firstMaxScore (scoreWorker cfg task w prediction)
          (ws.map (fun w' => scoreWorker cfg task w' prediction))).workerId) := by
  constructor
  · intro h
    simp [scorerScore, h, sortByScoreDesc]
  · intro w ws h
    obtain ⟨t, ht⟩ := sortByScoreDesc_cons_eq (scoreWorker cfg task w prediction)
      (ws.map (fun w' => scoreWorker cfg task w' prediction))
    simp only [scorerScore, h, List.map_cons]
    rw [ht]
    simp

/-- Witness for C6 amended on the tied pair `[wTieB, wTieA]`: the
selected worker is the first maximal-score entry of the input order. -/
theorem C6_tie_break_by_input_order_witness :
    (scorerScore DEFAULT_SCORER_CONFIG taskA [wTieB, wTieA] Option.none).map
      (fun r => r.workerId) =
      some (firstMaxScore (scoreWorker DEFAULT_SCORER_CONFIG taskA wTieB Option.none)
        ([wTieA].map
          (fun w' => scoreWorker DEFAULT_SCORER_CONFIG taskA w' Option.none))).workerId :=
  (C6_tie_break_by_input_order DEFAULT_SCORER_CONFIG taskA [wTieB, wTieA]
    Option.none).2 wTieB [wTieA]
    (by simp [isWorkerEligible, taskRequiredCapabilities, wTieA, wTieB, taskA])

/-! ## C9: round-robin fairness

Counting lemmas about `residueCount`: of `n` consecutive slots of a
`k`-slot rotation, slot `i` is visited `⌊n/k⌋` or `⌈n/k⌉` times. -/

theorem residueCount_add (s k i a b : ℕ) :
    residueCount s k i (a + b) = residueCount s k i a + residueCount (s + a) k i b := by
  unfold residueCount
  rw [List.range_add a b, List.countP_append, List.countP_map]
  congr 1
  apply List.countP_congr
  intro t _
  simp [Nat.add_assoc]

theorem residueCount_shift (s k i n : ℕ) :
    residueCount (s + k) k i n = residueCount s k i n := by
  unfold residueCount
  apply List.countP_congr
  intro t _
  simp only [decide_eq_true_eq]
  rw [show s + k + t = (s + t) + k by omega, Nat.add_mod_right]

theorem residueCount_block (s k i : ℕ) (hk : 0 < k) (hi : i < k) :
    residueCount s k i k = 1 := by
  have hsk : s % k < k := Nat.mod_lt _ hk
  have hmod : ∀ t, (s + t) % k = (s % k + t) % k := fun t => (Nat.mod_add_mod s k t).symm
  have hval : ∀ t, t < k → ((s + t) % k = i ↔
      t = if s % k ≤ i then i - s % k else k + i - s % k) := by
    intro t ht
    rw [hmod t]
    constructor
    · intro h
      by_cases hc : s % k + t < k
      · rw [Nat.mod_eq_of_lt hc] at h
        rw [if_pos (by omega)]
        omega
      · push_neg at hc
        have hsub : (s % k + t) % k = s % k + t - k := by
          rw [Nat.mod_eq_sub_mod hc, Nat.mod_eq_of_lt (by omega)]
        rw [hsub] at h
        rw [if_neg (by omega)]
        omega
    · intro h
      subst h
      by_cases hcase : s % k ≤ i
      · rw [if_pos hcase, show s % k + (i - s % k) = i by omega, Nat.mod_eq_of_lt hi]
      · rw [if_neg hcase, show s % k + (k + i - s % k) = k + i by omega,
          Nat.add_mod_left, Nat.mod_eq_of_lt hi]
  have ht0lt : (if s % k ≤ i then i - s % k else k + i - s % k) < k := by
    split <;> omega
  unfold residueCount
  have hcong : (List.range k).countP (fun t => decide ((s + t) % k = i)) =
      (List.range k).countP
        (fun t => t == if s % k ≤ i then i - s % k else k + i - s % k) := by
    apply List.countP_congr
    intro t ht
    have htk : t < k := List.mem_range.mp ht
    simp only [decide_eq_true_eq, beq_iff_eq]
    exact hval t htk
  rw [hcong]
  exact List.count_eq_one_of_mem (List.nodup_range k) (List.mem_range.mpr ht0lt)

theorem residueCount_le_one (s k i r : ℕ) (hk : 0 < k) (hi : i < k) (hr : r ≤ k) :
    residueCount s k i r ≤ 1 := by
  have hsplit := residueCount_add s k i r (k - r)
  rw [show r + (k - r) = k by omega, residueCount_block s k i hk hi] at hsplit
  omega

theorem residueCount_mul_add (s k i q r : ℕ) (hk : 0 < k) (hi : i < k) :
    residueCount s k i (k * q + r) = q + residueCount s k i r := by
  induction q with
  | zero => simp
  | succ q ih =>
    rw [show k * (q + 1) + r = k + (k * q + r) by ring, residueCount_add,
      residueCount_block s k i hk hi, residueCount_shift, ih]
    omega

theorem residueCount_main (s k i n : ℕ) (hk : 0 < k) (hi : i < k) :
    residueCount s k i n = n / k ∨ residueCount s k i n = (n + k - 1) / k := by
  have hdm : k * (n / k) + n % k = n := Nat.div_add_mod n k
  have hmlt : n % k < k := Nat.mod_lt _ hk
  have hcount : residueCount s k i n = n / k + residueCount s k i (n % k) := by
    conv_lhs => rw [← hdm]
    rw [residueCount_mul_add s k i _ _ hk hi]
  by_cases hr : n % k = 0
  · left
    rw [hcount, hr]
    simp [residueCount]
  · have hle := residueCount_le_one s k i (n % k) hk hi (le_of_lt hmlt)
    rcases Nat.lt_or_ge (residueCount s k i (n % k)) 1 with h0 | h1
    · left
      rw [hcount]
      omega
    · right
      have hres : residueCount s k i (n % k) = 1 := le_antisymm hle h1
      have heq : n + k - 1 = (n % k - 1) + (n / k + 1) * k := by
        rw [show (n / k + 1) * k = k * (n / k) + k by ring]
        have hgen : ∀ p : ℕ, p + n % k = n → n + k - 1 = n % k - 1 + (p + k) := by
          intro p hp
          omega
        exact hgen (k * (n / k)) hdm
      have hkey : (n + k - 1) / k = n / k + 1 := by
        rw [heq, Nat.add_mul_div_right _ _ hk, Nat.div_eq_of_lt (by omega)]
        omega
      rw [hcount, hres, hkey]

theorem rrIndices_succ (s K n : ℕ) :
    rrIndices s K (n + 1) = s % K :: rrIndices ((s + 1) % K) K n := by
  unfold rrIndices
  rw [List.range_succ_eq_map]
  simp only [List.map_cons, List.map_map, Nat.add_zero]
  congr 1
  apply List.map_congr_left
  intro t _
  simp only [Function.comp]
  rw [Nat.mod_add_mod, show s + 1 + t = s + Nat.succ t by omega]

theorem rrIndices_mem_lt (s K n : ℕ) (hK : 0 < K) :
    ∀ j ∈ rrIndices s K n, j < K := by
  intro j hj
  simp only [rrIndices, List.mem_map] at hj
  obtain ⟨t, _, rfl⟩ := hj
  exact Nat.mod_lt _ hK

theorem cursor_toNat_lt (c : ℤ) (K : ℕ) (hK : 0 < K) :
    ((c + 1) % (K : ℤ)).toNat < K := by
  have hKz : (0 : ℤ) < (K : ℤ) := by exact_mod_cast hK
  have h1 := Int.emod_lt_of_pos (c + 1) hKz
  have h0 := Int.emod_nonneg (c + 1) (ne_of_gt hKz)
  omega

theorem cursor_toNat_next (c : ℤ) (K : ℕ) (hK : 0 < K) :
    (((c + 1) % (K : ℤ) + 1) % (K : ℤ)).toNat = (((c + 1) % (K : ℤ)).toNat + 1) % K := by
  have hKz : (0 : ℤ) < (K : ℤ) := by exact_mod_cast hK
  have h0 : 0 ≤ (c + 1) % (K : ℤ) := Int.emod_nonneg (c + 1) (ne_of_gt hKz)
  have hsc : (c + 1) % (K : ℤ) = ((((c + 1) % (K : ℤ)).toNat : ℕ) : ℤ) :=
    (Int.toNat_of_nonneg h0).symm
  conv_lhs => rw [hsc]
  rw [show ((((c + 1) % (K : ℤ)).toNat : ℕ) : ℤ) + 1 =
    ((((c + 1) % (K : ℤ)).toNat + 1 : ℕ) : ℤ) by push_cast; ring]
  rw [← Int.natCast_mod]
  exact Int.toNat_natCast _

theorem filterMap_id_map_some {α β : Type} (l : List α) (F : α → β) :
    ((l.map (fun j => some (F j))).filterMap id) = l.map F := by
  induction l with
  | nil => rfl
  | cons x xs ih => simp [ih]

/-- On a nonempty available list, one `schedule` call advances the
cursor modulo the length and picks the worker at the new cursor. -/
theorem rrSchedule_eq_of_ne_nil (c : ℤ) (rs : Registry) (now heartbeatTimeoutMs : ℕ)
    (task : Task) (reason : SchedulingReason)
    (h : getAvailable rs now heartbeatTimeoutMs (taskRequiredCapabilities task) ≠ []) :
    rrSchedule c rs now heartbeatTimeoutMs task reason =
      ((c + 1) % ((getAvailable rs now heartbeatTimeoutMs
          (taskRequiredCapabilities task)).length : ℤ),
       some { taskId := task.id
              workerId := ((getAvailable rs now heartbeatTimeoutMs
                (taskRequiredCapabilities task)).getD
                  (((c + 1) % ((getAvailable rs now heartbeatTimeoutMs
                    (taskRequiredCapabilities task)).length : ℤ)).toNat)
                  phantomWorker).id
              timestamp := now
              usedFallback := true
              prediction := none
              reason := reason }) := by
  have hie : (getAvailable rs now heartbeatTimeoutMs
      (taskRequiredCapabilities task)).isEmpty = false := by
    cases hA : getAvailable rs now heartbeatTimeoutMs (taskRequiredCapabilities task) with
    | nil => exact absurd hA h
    | cons x xs => rfl
  simp [rrSchedule, hie]

/-- The decisions of `N` consecutive `schedule` calls over a fixed
nonempty available list are exactly the workers at the rotation slots
`rrIndices` visits. -/
theorem rrRun_decisions (rs : Registry) (now heartbeatTimeoutMs : ℕ) (task : Task)
    (reason : SchedulingReason)
    (h : getAvailable rs now heartbeatTimeoutMs (taskRequiredCapabilities task) ≠ [])
    (n : ℕ) :
    ∀ c : ℤ,
      (rrRun c rs now heartbeatTimeoutMs task reason n).2 =
        (rrIndices (((c + 1) % ((getAvailable rs now heartbeatTimeoutMs
            (taskRequiredCapabilities task)).length : ℤ)).toNat)
          (getAvailable rs now heartbeatTimeoutMs (taskRequiredCapabilities task)).length
          n).map
          (fun j => some
            { taskId := task.id,
              workerId := ((getAvailable rs now heartbeatTimeoutMs
                (taskRequiredCapabilities task)).getD j phantomWorker).id,
              timestamp := now, usedFallback := true, prediction := none,
              reason := reason }) := by
  have hK : 0 < (getAvailable rs now heartbeatTimeoutMs
      (taskRequiredCapabilities task)).length := List.length_pos.mpr h
  induction n with
  | zero => intro c; rfl
  | succ n ih =>
    intro c
    rw [show rrRun c rs now heartbeatTimeoutMs task reason (n + 1) =
      ((rrRun (rrSchedule c rs now heartbeatTimeoutMs task reason).1 rs now
        heartbeatTimeoutMs task reason n).1,
       (rrSchedule c rs now heartbeatTimeoutMs task reason).2 ::
        (rrRun (rrSchedule c rs now heartbeatTimeoutMs task reason).1 rs now
          heartbeatTimeoutMs task reason n).2) from rfl]
    rw [rrSchedule_eq_of_ne_nil c rs now heartbeatTimeoutMs task reason h]
    dsimp only
    rw [rrIndices_succ, List.map_cons]
    have hlt := cursor_toNat_lt c
      (getAvailable rs now heartbeatTimeoutMs (taskRequiredCapabilities task)).length hK
    congr 1
    · rw [Nat.mod_eq_of_lt hlt]
    · rw [ih ((c + 1) % ((getAvailable rs now heartbeatTimeoutMs
        (taskRequiredCapabilities task)).length : ℤ))]
      rw [cursor_toNat_next c
        (getAvailable rs now heartbeatTimeoutMs (taskRequiredCapabilities task)).length hK]

/-- C9: with the eligible list unchanged across `N` consecutive calls
to the round-robin scheduler (the registry, clock and task fixed, and
worker ids distinct), the worker at each eligible position receives
either `⌈N/K⌉` or `⌊N/K⌋` of the `N` dispatches; when the eligible list
is empty the call returns no decision. -/
theorem C9_round_robin_fairness (rs : Registry) (now heartbeatTimeoutMs : ℕ)
    (task : Task) (reason : SchedulingReason) (c : ℤ) (N : ℕ) :
    (getAvailable rs now heartbeatTimeoutMs (taskRequiredCapabilities task) = [] →
      (rrSchedule c rs now heartbeatTimeoutMs task reason).2 = none) ∧
    (∀ i : ℕ, ∀ hi : i < (getAvailable rs now heartbeatTimeoutMs
        (taskRequiredCapabilities task)).length,
      ((getAvailable rs now heartbeatTimeoutMs (taskRequiredCapabilities task)).map
        WorkerState.id).Nodup →
      (((rrRun c rs now heartbeatTimeoutMs task reason N).2.filterMap id).countP
          (fun d => d.workerId == ((getAvailable rs now heartbeatTimeoutMs
            (taskRequiredCapabilities task)).get ⟨i, hi⟩).id) =
        N / (getAvailable rs now heartbeatTimeoutMs
          (taskRequiredCapabilities task)).length ∨
       ((rrRun c rs now heartbeatTimeoutMs task reason N).2.filterMap id).countP
          (fun d => d.workerId == ((getAvailable rs now heartbeatTimeoutMs
            (taskRequiredCapabilities task)).get ⟨i, hi⟩).id) =
        (N + (getAvailable rs now heartbeatTimeoutMs
          (taskRequiredCapabilities task)).length - 1) /
          (getAvailable rs now heartbeatTimeoutMs
            (taskRequiredCapabilities task)).length)) := by
  constructor
  · intro hempty
    simp [rrSchedule, hempty]
  · intro i hi hnodup
    have hne : getAvailable rs now heartbeatTimeoutMs (taskRequiredCapabilities task) ≠
        [] := by
      intro hnil
      rw [hnil] at hi
      simp at hi
    have hK : 0 < (getAvailable rs now heartbeatTimeoutMs
        (taskRequiredCapabilities task)).length := List.length_pos.mpr hne
    rw [rrRun_decisions rs now heartbeatTimeoutMs task reason hne N c,
      filterMap_id_map_some, List.countP_map]
    have hcong : (rrIndices (((c + 1) % ((getAvailable rs now heartbeatTimeoutMs
          (taskRequiredCapabilities task)).length : ℤ)).toNat)
        (getAvailable rs now heartbeatTimeoutMs (taskRequiredCapabilities task)).length
        N).countP
        ((fun d : SchedulingDecision => d.workerId == ((getAvailable rs now
            heartbeatTimeoutMs (taskRequiredCapabilities task)).get ⟨i, hi⟩).id) ∘
          (fun j : ℕ =>
            ({ taskId := task.id,
               workerId := ((getAvailable rs now heartbeatTimeoutMs
                 (taskRequiredCapabilities task)).getD j phantomWorker).id,
               timestamp := now, usedFallback := true, prediction := none,
               reason := reason } : SchedulingDecision))) =
        residueCount (((c + 1) % ((getAvailable rs now heartbeatTimeoutMs
            (taskRequiredCapabilities task)).length : ℤ)).toNat)
          (getAvailable rs now heartbeatTimeoutMs (taskRequiredCapabilities task)).length
          i N := by
      unfold rrIndices residueCount
      rw [List.countP_map]
      apply List.countP_congr
      intro t _
      have hjK : ((((c + 1) % ((getAvailable rs now heartbeatTimeoutMs
          (taskRequiredCapabilities task)).length : ℤ)).toNat + t) %
            (getAvailable rs now heartbeatTimeoutMs
              (taskRequiredCapabilities task)).length) <
          (getAvailable rs now heartbeatTimeoutMs
            (taskRequiredCapabilities task)).length := Nat.mod_lt _ hK
      simp only [Function.comp, beq_iff_eq, decide_eq_true_eq]
      rw [List.getD_eq_get _ phantomWorker hjK]
      constructor
      · intro hid
        have hj' : ((((c + 1) % ((getAvailable rs now heartbeatTimeoutMs
            (taskRequiredCapabilities task)).length : ℤ)).toNat + t) %
              (getAvailable rs now heartbeatTimeoutMs
                (taskRequiredCapabilities task)).length) <
            ((getAvailable rs now heartbeatTimeoutMs
              (taskRequiredCapabilities task)).map WorkerState.id).length := by
          simpa using hjK
        have hi' : i < ((getAvailable rs now heartbeatTimeoutMs
            (taskRequiredCapabilities task)).map WorkerState.id).length := by
          simpa using hi
        have hget : ((getAvailable rs now heartbeatTimeoutMs
            (taskRequiredCapabilities task)).map WorkerState.id).get ⟨_, hj'⟩ =
            ((getAvailable rs now heartbeatTimeoutMs
              (taskRequiredCapabilities task)).map WorkerState.id).get ⟨i, hi'⟩ := by
          simpa using hid
        have := hnodup.get_inj_iff.mp hget
        simpa using this
      · intro hji
        subst hji
        rfl
    rw [hcong]
    exact residueCount_main _ _ i N hK hi

/-- Witness for C9: two eligible workers, three calls from a fresh
cursor — the first worker receives 2 = ⌈3/2⌉ dispatches. -/
theorem C9_round_robin_fairness_witness :
    ((rrRun (-1) [wIdle, wIdle2] 0 30000 taskA
        SchedulingReason.fallback_round_robin 3).2.filterMap id).countP
      (fun d => d.workerId == ((getAvailable [wIdle, wIdle2] 0 30000
        (taskRequiredCapabilities taskA)).get ⟨0, by decide⟩).id) =
      3 / (getAvailable [wIdle, wIdle2] 0 30000 (taskRequiredCapabilities taskA)).length ∨
    ((rrRun (-1) [wIdle, wIdle2] 0 30000 taskA
        SchedulingReason.fallback_round_robin 3).2.filterMap id).countP
      (fun d => d.workerId == ((getAvailable [wIdle, wIdle2] 0 30000
        (taskRequiredCapabilities taskA)).get ⟨0, by decide⟩).id) =
      (3 + (getAvailable [wIdle, wIdle2] 0 30000
        (taskRequiredCapabilities taskA)).length - 1) /
        (getAvailable [wIdle, wIdle2] 0 30000 (taskRequiredCapabilities taskA)).length :=
  (C9_round_robin_fairness [wIdle, wIdle2] 0 30000 taskA
    SchedulingReason.fallback_round_robin (-1) 3).2 0 (by decide) (by decide)

end Nexus
